import Mathlib

/-!
# Verification of the Azure Batch virtual-kubelet provider

A shallow embedding of `src/providers/azurebatch/batch.go` from
`lawrencegripper/virtual-kubelet`.  Pure functions of the Go source become
Lean functions; the remote Azure Batch task store becomes an explicit
in-memory state (`List CloudTask`) threaded through the operations; the
Go pattern `(result, err)` becomes `Except` / `GoResult`, where `GoResult`
additionally distinguishes a Go `panic(err)` from an ordinary error return.

Helper functions of the same Go package that are referenced by `batch.go`
but whose defining file is not part of the sources
(`getTaskIDForPod`, `getPodFromTask`, `convertTaskToPodStatus`) are
modelled from the specification; their doc comments say so explicitly.
-/

/-- Fixed metadata key under which the serialized Pod is embedded in a
task's environment settings (`podJsonKey`, batch.go line 25). -/
def podJsonKey : String := "virtualkubelet_pod"

/-- Kubernetes pod phase (`v1.PodPhase`); the five standard values. -/
inductive PodPhase where
  | pending
  | running
  | succeeded
  | failed
  | unknown
  deriving DecidableEq, Repr

/-- Azure Batch task state enum {Active, Preparing, Running, Completed}
(`batch.TaskState`). -/
inductive TaskState where
  | active
  | preparing
  | running
  | completed
  deriving DecidableEq, Repr

/-- A container declared in a pod spec.  The provider treats containers
opaquely (they are only handed to the external command generator), so only
the name is modelled. -/
structure Container where
  name : String
  deriving DecidableEq, Repr

/-- A volume declared in a pod spec; opaque to the provider. -/
structure Volume where
  name : String
  deriving DecidableEq, Repr

/-- The subset of `v1.PodStatus` the provider produces: the phase and the
start time derived from the task's execution start timestamp. -/
structure PodStatus where
  phase : PodPhase
  startTime : Option Int
  deriving DecidableEq, Repr

/-- Pod spec: containers and volumes (the fields `CreatePod` reads). -/
structure PodSpec where
  containers : List Container
  volumes : List Volume
  deriving DecidableEq, Repr

/-- A Kubernetes pod (`v1.Pod`), restricted to the fields the provider
reads or writes.  `ns` models the Go field `Namespace` (a reserved word in
Lean). -/
structure Pod where
  ns : String
  name : String
  uid : String
  spec : PodSpec
  status : PodStatus
  deriving DecidableEq, Repr

/-- The serialized-Pod payload stored in a task environment setting.
The Go code stores `string(json.Marshal(pod))`; the serialization format
is implementation-defined and must round-trip (spec §6), so it is
modelled as an exact embedding: either a faithfully serialized pod, or
bytes that do not deserialize to a pod. -/
inductive Payload where
  | pod : Pod → Payload
  | garbage : String → Payload
  deriving DecidableEq, Repr

/-- One entry of a task's environment settings
(`batch.EnvironmentSetting`). -/
structure EnvironmentSetting where
  name : String
  value : Payload
  deriving DecidableEq, Repr

/-- A remote task (`batch.CloudTask`), restricted to the fields the
provider reads or writes. -/
structure CloudTask where
  id : String
  displayName : String
  commandLine : String
  environmentSettings : List EnvironmentSetting
  state : TaskState
  exitCode : Option Int
  startTime : Option Int
  deriving DecidableEq, Repr

/-- Errors surfaced by the remote service or by translation.  `remote`
carries the HTTP status code the Go response object exposes. -/
inductive GoError where
  | remote : Nat → String → GoError
  | translation : String → GoError
  | cmdGen : String → GoError
  deriving DecidableEq, Repr

/-- Outcome of a Go function: an ordinary return value, an ordinary error
return, or a `panic(err)` that aborts instead of returning to the caller. -/
inductive GoResult (α : Type) where
  | ok : α → GoResult α
  | err : GoError → GoResult α
  | panicked : GoError → GoResult α
  deriving DecidableEq, Repr

/-- True exactly when the outcome is an ordinary error return (not a
success and not a panic). -/
def GoResult.isErrReturn {α : Type} : GoResult α → Bool
  | .err _ => true
  | _ => false

/-- Modelled from the spec: the Identifier Codec `getTaskIDForPod` is used
by batch.go but defined in a file of the package that is not among the
sources.  Spec §4.1: `taskID(namespace, name) -> string`, pure,
deterministic, total, collision-free.  It is modelled as an explicitly
injective encoding: a unary length prefix for the namespace, a separator
character, then the namespace and name characters. -/
def getTaskIDForPod (ns name : String) : String :=
  String.mk (List.replicate ns.length 'n' ++ ':' :: (ns.data ++ name.data))

/-- Modelled from the spec: `getPodFromTask` is used by batch.go but
defined in a file of the package that is not among the sources.  Spec
§4.5: reconstruct a Pod from a Task by deserializing the embedded payload
from the environment entry with the fixed key; a task missing that entry,
or with an undeserializable payload, is a hard error and never a
zero-value Pod. -/
def getPodFromTask (t : CloudTask) : Except GoError Pod :=
  match t.environmentSettings.find? (fun es => es.name == podJsonKey) with
  | none => .error (.translation "task has no embedded pod payload")
  | some es =>
    match es.value with
    | .pod p => .ok p
    | .garbage s => .error (.translation s)

/-- Modelled from the spec: the Status Translator `convertTaskToPodStatus`
is used by batch.go but defined in a file of the package that is not among
the sources.  Spec §4.4: Active, Preparing → Pending; Running → Running;
Completed with exit code 0 → Succeeded; Completed with exit code ≠ 0 →
Failed; the pod start time derives from the task's execution-start
timestamp. -/
def convertTaskToPodStatus (t : CloudTask) : PodStatus :=
  { phase :=
      match t.state with
      | .active => .pending
      | .preparing => .pending
      | .running => .running
      | .completed => if t.exitCode = some 0 then .succeeded else .failed
    startTime := t.startTime }

/-! ## The remote task store

The Azure Batch job's task collection, modelled as an explicit list of
tasks in remote listing order.  `addTask`, `deleteTask` and
`getTaskRemote` model the contracts of spec §6: `AddTask` rejects an
existing identifier with a conflict, `DeleteTask` of an absent identifier
is a remote not-found error, `GetTask` of an absent identifier yields a
404 response with a zero-value task (as the Go client surfaces it). -/

/-- Remote `AddTask(jobID, spec)`: rejects a duplicate identifier with a
conflict error (spec §4.3: no implicit overwrite); otherwise appends the
task, which the remote system starts in state Active. -/
def addTask (store : List CloudTask) (t : CloudTask) :
    List CloudTask × Option GoError :=
  if store.any (fun u => u.id == t.id) then
    (store, some (GoError.remote 409 "TaskExists"))
  else
    (store ++ [t], none)

/-- Remote `DeleteTask(jobID, taskID)`: removes the task with the given
identifier, or reports a remote not-found error when no such task exists. -/
def deleteTask (store : List CloudTask) (tid : String) :
    List CloudTask × Option GoError :=
  if store.any (fun u => u.id == tid) then
    (store.filter (fun u => u.id != tid), none)
  else
    (store, some (GoError.remote 404 "TaskNotFound"))

/-- What the Go client returns from `taskClient.Get`: a task value (the
zero value when the call failed), the HTTP status code of the response,
and an optional error. -/
structure TaskGetResponse where
  task : CloudTask
  statusCode : Nat
  err : Option GoError
  deriving DecidableEq, Repr

/-- The zero value of `batch.CloudTask`, returned alongside an error. -/
def zeroTask : CloudTask :=
  { id := "", displayName := "", commandLine := "", environmentSettings := []
    state := .active, exitCode := none, startTime := none }

/-- Remote `GetTask(jobID, taskID)`: the first task with the given
identifier, or a 404 response carrying the zero-value task. -/
def getTaskRemote (store : List CloudTask) (tid : String) : TaskGetResponse :=
  match store.find? (fun u => u.id == tid) with
  | some t => { task := t, statusCode := 200, err := none }
  | none => { task := zeroTask, statusCode := 404
              err := some (GoError.remote 404 "TaskNotFound") }

/-! ## The provider operations (batch.go) -/

/-- The argument bundle handed to the external command generator
(`pod2docker.PodComponents`, batch.go lines 124-128). -/
structure PodComponents where
  containers : List Container
  podName : String
  volumes : List Volume
  deriving DecidableEq, Repr

/-- CreatePod (batch.go lines 122-158).  Derives the command line via
the external generator (an opaque collaborator passed as `gen`),
serializes the pod, builds the task specification and submits it.
Faithful to the source: the result of `p.taskClient.Add` on line 155 is
discarded, so the function returns nil whenever command generation
succeeds, whatever the remote submission reported. -/
def CreatePodGo (gen : PodComponents → Except GoError String)
    (store : List CloudTask) (pod : Pod) : List CloudTask × GoResult Unit :=
  match gen { containers := pod.spec.containers, podName := pod.name
              volumes := pod.spec.volumes } with
  | .error e => (store, .err e)
  | .ok podCommand =>
    let task : CloudTask :=
      { id := getTaskIDForPod pod.ns pod.name
        displayName := pod.uid
        commandLine := "/bin/bash -c \"" ++ podCommand ++ "\""
        environmentSettings := [{ name := podJsonKey, value := Payload.pod pod }]
        state := .active, exitCode := none, startTime := none }
    let added := addTask store task
    (added.1, .ok ())

/-- DeletePod (batch.go lines 188-199): deletes the task with the
derived identifier and returns the remote error unchanged if the deletion
failed. -/
def DeletePodGo (store : List CloudTask) (pod : Pod) :
    List CloudTask × GoResult Unit :=
  match deleteTask store (getTaskIDForPod pod.ns pod.name) with
  | (s, some e) => (s, .err e)
  | (s, none) => (s, .ok ())

/-- UpdatePod (batch.go lines 175-185): `DeletePod` then `CreatePod`;
a delete error is returned at once and the create step is not attempted. -/
def UpdatePodGo (gen : PodComponents → Except GoError String)
    (store : List CloudTask) (pod : Pod) : List CloudTask × GoResult Unit :=
  match DeletePodGo store pod with
  | (s, GoResult.ok _) => CreatePodGo gen s pod
  | (s, GoResult.err e) => (s, GoResult.err e)
  | (s, GoResult.panicked e) => (s, GoResult.panicked e)

/-- The body of `GetPod` (batch.go lines 202-227) applied to the response
of `taskClient.Get`: a 404 response is an absent pod with no error; any
other remote error is returned; a translation failure of the fetched task
is a `panic(err)` (line 215); otherwise the reconstructed pod is returned
with its Status field overwritten by the freshly translated status
(lines 223-224). -/
def GetPodCore (resp : TaskGetResponse) : GoResult (Option Pod) :=
  match resp.err with
  | some e => if resp.statusCode = 404 then .ok none else .err e
  | none =>
    match getPodFromTask resp.task with
    | .error e => .panicked e
    | .ok pod => .ok (some { pod with status := convertTaskToPodStatus resp.task })

/-- GetPod (batch.go lines 202-227) against the remote store. -/
def GetPodGo (store : List CloudTask) (ns name : String) : GoResult (Option Pod) :=
  GetPodCore (getTaskRemote store (getTaskIDForPod ns name))

/-- The accumulation loop of `listTasks` (batch.go lines 100-109): drain
the remaining pages in order, aborting with the first page-fetch error. -/
def drainPages (acc : List CloudTask) :
    List (Except GoError (List CloudTask)) → Except GoError (List CloudTask)
  | [] => .ok acc
  | .error e :: _ => .error e
  | .ok p :: rest => drainPages (acc ++ p) rest

/-- listTasks (batch.go lines 94-112).  The remote pagination is
modelled as the sequence of page responses the client would observe: the
first element is the initial `List` response, the rest are the successive
`Next` responses.  A failed fetch (initial or mid-pagination) returns that
error; otherwise all pages are concatenated in listing order. -/
def listTasksGo (pages : List (Except GoError (List CloudTask))) :
    Except GoError (List CloudTask) :=
  match pages with
  | [] => .ok []
  | .error e :: _ => .error e
  | .ok first :: rest => drainPages first rest

/-- The reconstruction loop of `GetPods` (batch.go lines 263-270): one pod
per task, in order; a translation failure is a `panic(err)` (line 267). -/
def getPodsLoop : List CloudTask → GoResult (List Pod)
  | [] => .ok []
  | t :: rest =>
    match getPodFromTask t with
    | .error e => .panicked e
    | .ok pod =>
      match getPodsLoop rest with
      | .ok pods => .ok (pod :: pods)
      | .err e => .err e
      | .panicked e => .panicked e

/-- GetPods (batch.go lines 251-279): lists all tasks (a listing error
is a `panic(err)`, line 255) and reconstructs one pod per task.  Faithful
to the source: the per-pod status refresh is commented out (lines
272-277), so each returned pod keeps the status deserialized from its
embedded payload. -/
def GetPodsGo (pages : List (Except GoError (List CloudTask))) :
    GoResult (List Pod) :=
  match listTasksGo pages with
  | .error e => .panicked e
  | .ok tasks => getPodsLoop tasks

/-- GetContainerLogs (batch.go lines 230-248): fetches the file
`wd/<containerName>` from the task with the derived identifier and
returns its raw content; the `tail` argument is accepted but never used.
`getFromTask` and `readAll` model the file client and the stream read,
each of which can fail. -/
def GetContainerLogsGo {R : Type}
    (getFromTask : String → String → String → Except GoError R)
    (readAll : R → Except GoError String)
    (jobID ns podName containerName : String) (tail : Int) :
    Except GoError String :=
  let logFileLocation := "wd/" ++ containerName
  match getFromTask jobID (getTaskIDForPod ns podName) logFileLocation with
  | .error e => .error e
  | .ok reader =>
    match readAll reader with
    | .error e => .error e
    | .ok bytes => .ok bytes

/-! ## Helper lemmas -/

/-- The unary length prefix of the identifier encoding is unambiguous:
equal encoded lists have equal prefix lengths and equal remainders. -/
theorem replicate_sep_inj (m : Nat) : ∀ (k : Nat) (xs ys : List Char),
    List.replicate m 'n' ++ ':' :: xs = List.replicate k 'n' ++ ':' :: ys →
    m = k ∧ xs = ys := by
  induction m with
  | zero =>
    intro k xs ys h
    cases k with
    | zero =>
      simp only [List.replicate, List.nil_append] at h
      injection h with _ h2
      exact ⟨rfl, h2⟩
    | succ k =>
      simp only [List.replicate, List.nil_append, List.cons_append] at h
      injection h with h1 _
      exact absurd h1 (by decide)
  | succ m ih =>
    intro k xs ys h
    cases k with
    | zero =>
      simp only [List.replicate, List.nil_append, List.cons_append] at h
      injection h with h1 _
      exact absurd h1 (by decide)
    | succ k =>
      simp only [List.replicate, List.cons_append] at h
      injection h with _ h2
      obtain ⟨hmk, hxy⟩ := ih k xs ys h2
      exact ⟨by omega, hxy⟩

/-- DeletePodGo in closed form: success removes the task with the
derived identifier, absence is the remote not-found error. -/
theorem deletePodGo_eq (store : List CloudTask) (pod : Pod) :
    DeletePodGo store pod =
      if store.any (fun u => u.id == getTaskIDForPod pod.ns pod.name) then
        (store.filter (fun u => u.id != getTaskIDForPod pod.ns pod.name),
          GoResult.ok ())
      else (store, GoResult.err (GoError.remote 404 "TaskNotFound")) := by
  unfold DeletePodGo deleteTask
  by_cases h : store.any (fun u => u.id == getTaskIDForPod pod.ns pod.name) <;>
    simp [h]

/-- After filtering out the derived identifier, a lookup of that
identifier finds nothing. -/
theorem find?_filter_ne_none (store : List CloudTask) (tid : String) :
    (store.filter (fun u => u.id != tid)).find? (fun u => u.id == tid)
      = none := by
  rw [List.find?_eq_none]
  intro x hx
  have hne := (List.mem_filter.mp hx).2
  simp only [bne_iff_ne, ne_eq] at hne
  simpa using hne

/-- A reconstruction failure anywhere in the task list makes the
reconstruction loop of `GetPods` panic. -/
theorem getPodsLoop_bad_panics (tasks : List CloudTask)
    (h : ∃ t, t ∈ tasks ∧ ∃ e, getPodFromTask t = Except.error e) :
    ∃ e', getPodsLoop tasks = GoResult.panicked e' := by
  induction tasks with
  | nil => simp at h
  | cons t rest ih =>
    cases hgt : getPodFromTask t with
    | error e0 => exact ⟨e0, by simp [getPodsLoop, hgt]⟩
    | ok p =>
      obtain ⟨u, hu, e, he⟩ := h
      have hurest : u ∈ rest := by
        rcases List.mem_cons.mp hu with h1 | h1
        · rw [h1, hgt] at he
          cases he
        · exact h1
      obtain ⟨e', hres⟩ := ih ⟨u, hurest, e, he⟩
      exact ⟨e', by simp [getPodsLoop, hgt, hres]⟩

/-- When every task carries a well-formed payload, the reconstruction
loop of `GetPods` succeeds with exactly one pod per task, in order, each
pod being the one deserialized from its task's payload. -/
theorem getPodsLoop_ok (tasks : List CloudTask)
    (h : ∀ t ∈ tasks, ∃ p, getPodFromTask t = Except.ok p) :
    ∃ pods, getPodsLoop tasks = GoResult.ok pods ∧
      List.Forall₂ (fun t p => getPodFromTask t = Except.ok p) tasks pods := by
  induction tasks with
  | nil => exact ⟨[], rfl, List.Forall₂.nil⟩
  | cons t rest ih =>
    obtain ⟨p, hp⟩ := h t (List.mem_cons_self t rest)
    obtain ⟨pods, hres, hall⟩ := ih (fun u hu => h u (List.mem_cons_of_mem t hu))
    exact ⟨p :: pods, by simp [getPodsLoop, hp, hres],
      List.Forall₂.cons hp hall⟩

/-- A successful reconstruction loop returns exactly the pods
deserialized from the tasks' payloads, in order. -/
theorem getPodsLoop_ok_inv (tasks : List CloudTask) (pods : List Pod)
    (h : getPodsLoop tasks = GoResult.ok pods) :
    List.Forall₂ (fun t p => getPodFromTask t = Except.ok p) tasks pods := by
  induction tasks generalizing pods with
  | nil =>
    simp only [getPodsLoop] at h
    cases h
    exact List.Forall₂.nil
  | cons t rest ih =>
    simp only [getPodsLoop] at h
    cases hgt : getPodFromTask t with
    | error e0 => rw [hgt] at h; cases h
    | ok p =>
      rw [hgt] at h
      cases hrec : getPodsLoop rest with
      | ok pods0 =>
        rw [hrec] at h
        cases h
        exact List.Forall₂.cons hgt (ih pods0 hrec)
      | err e0 => rw [hrec] at h; cases h
      | panicked e0 => rw [hrec] at h; cases h

/-- Draining only successful pages accumulates them all, in order. -/
theorem drainPages_ok (pgs : List (List CloudTask)) : ∀ acc,
    drainPages acc (pgs.map Except.ok) = Except.ok (acc ++ pgs.flatten) := by
  induction pgs with
  | nil => intro acc; simp [drainPages]
  | cons p ps ih =>
    intro acc
    calc drainPages acc (List.map Except.ok (p :: ps))
        = drainPages (acc ++ p) (List.map Except.ok ps) := rfl
      _ = Except.ok ((acc ++ p) ++ ps.flatten) := ih (acc ++ p)
      _ = Except.ok (acc ++ (p :: ps).flatten) := by
          simp [List.append_assoc]

/-- A failed page fetch aborts the drain with that error. -/
theorem drainPages_error (pre : List (List CloudTask)) (e : GoError)
    (rest : List (Except GoError (List CloudTask))) : ∀ acc,
    drainPages acc (pre.map Except.ok ++ Except.error e :: rest)
      = Except.error e := by
  induction pre with
  | nil => intro acc; rfl
  | cons p ps ih =>
    intro acc
    rw [List.map_cons, List.cons_append]
    exact ih (acc ++ p)

/-- The model of listTasks over successful pages returns their concatenation in
listing order. -/
theorem listTasksGo_ok (p0 : List CloudTask) (ps : List (List CloudTask)) :
    listTasksGo ((p0 :: ps).map Except.ok) = Except.ok (p0 ++ ps.flatten) :=
  drainPages_ok ps p0

/-- The model of listTasks aborts with the first page-fetch error. -/
theorem listTasksGo_error (pre : List (List CloudTask)) (e : GoError)
    (rest : List (Except GoError (List CloudTask))) :
    listTasksGo (pre.map Except.ok ++ Except.error e :: rest)
      = Except.error e := by
  cases pre with
  | nil => rfl
  | cons p ps => exact drainPages_error ps e rest p

/-! ## Claim theorems -/

/-- C1: for every fetched task, the translated PodStatus phase is exactly:
task state Active or Preparing maps to Pending, Running maps to Running,
Completed with exit code 0 maps to Succeeded, and Completed with any
nonzero exit code maps to Failed; the mapping is exhaustive over the
task-state enum (every task lands in one of the four phases). -/
theorem convertTaskToPodStatus_exact_exhaustive (t : CloudTask) :
    ((t.state = TaskState.active ∨ t.state = TaskState.preparing) →
      (convertTaskToPodStatus t).phase = PodPhase.pending) ∧
    (t.state = TaskState.running →
      (convertTaskToPodStatus t).phase = PodPhase.running) ∧
    (t.state = TaskState.completed → t.exitCode = some 0 →
      (convertTaskToPodStatus t).phase = PodPhase.succeeded) ∧
    (∀ c : Int, t.state = TaskState.completed → t.exitCode = some c → c ≠ 0 →
      (convertTaskToPodStatus t).phase = PodPhase.failed) ∧
    ((convertTaskToPodStatus t).phase = PodPhase.pending ∨
      (convertTaskToPodStatus t).phase = PodPhase.running ∨
      (convertTaskToPodStatus t).phase = PodPhase.succeeded ∨
      (convertTaskToPodStatus t).phase = PodPhase.failed) := by
  obtain ⟨id, dn, cl, env, st, ec, stt⟩ := t
  cases st with
  | active => simp [convertTaskToPodStatus]
  | preparing => simp [convertTaskToPodStatus]
  | running => simp [convertTaskToPodStatus]
  | completed =>
    refine ⟨by simp, by simp, ?_, ?_, ?_⟩
    · intro _ h0
      have h0' : ec = some 0 := h0
      simp [convertTaskToPodStatus, h0']
    · intro c _ hc hne
      have hc' : ec = some c := hc
      simp [convertTaskToPodStatus, hc', hne]
    · by_cases h0 : ec = some 0 <;> simp [convertTaskToPodStatus, h0]

/-- C1 witness: concrete evaluations at the boundary exit codes 0 and -1
and at state Active. -/
theorem convertTaskToPodStatus_exact_exhaustive_witness :
    (convertTaskToPodStatus { zeroTask with state := TaskState.active }).phase
        = PodPhase.pending ∧
    (convertTaskToPodStatus
        { zeroTask with state := TaskState.completed, exitCode := some 0 }).phase
        = PodPhase.succeeded ∧
    (convertTaskToPodStatus
        { zeroTask with state := TaskState.completed, exitCode := some (-1) }).phase
        = PodPhase.failed :=
  ⟨(convertTaskToPodStatus_exact_exhaustive _).1 (Or.inl rfl),
   (convertTaskToPodStatus_exact_exhaustive _).2.2.1 rfl rfl,
   (convertTaskToPodStatus_exact_exhaustive _).2.2.2.1 (-1) rfl rfl (by decide)⟩

/-- C8: the derived task identifier is a pure function of
(namespace, name); it is deterministic (the same pair always yields the
same string) and injective (two distinct pairs never yield the same
identifier). -/
theorem getTaskIDForPod_deterministic_injective :
    (∀ ns name : String, getTaskIDForPod ns name = getTaskIDForPod ns name) ∧
    (∀ ns₁ name₁ ns₂ name₂ : String,
      (ns₁, name₁) ≠ (ns₂, name₂) →
      getTaskIDForPod ns₁ name₁ ≠ getTaskIDForPod ns₂ name₂) := by
  refine ⟨fun _ _ => rfl, ?_⟩
  intro ns₁ name₁ ns₂ name₂ hne heq
  apply hne
  unfold getTaskIDForPod at heq
  injection heq with hdata
  obtain ⟨hlen, happ⟩ := replicate_sep_inj _ _ _ _ hdata
  obtain ⟨hns, hname⟩ := List.append_inj happ hlen
  rw [String.ext hns, String.ext hname]

/-- A command generator that always succeeds, for concrete evaluations. -/
def genOK : PodComponents → Except GoError String := fun _ => .ok "echo hello"

/-- A concrete pod used in concrete evaluations. -/
def podA : Pod :=
  { ns := "default", name := "mypod", uid := "uid-1"
    spec := { containers := [{ name := "c1" }], volumes := [] }
    status := { phase := .pending, startTime := none } }

/-- A store already holding a task under podA's derived identifier. -/
def occupiedStore : List CloudTask :=
  [{ zeroTask with id := getTaskIDForPod "default" "mypod" }]

/-- A well-formed remote task for podA: it carries the embedded payload
and is currently Running. -/
def taskB : CloudTask :=
  { id := getTaskIDForPod "default" "mypod", displayName := "uid-1"
    commandLine := ""
    environmentSettings := [{ name := podJsonKey, value := Payload.pod podA }]
    state := .running, exitCode := none, startTime := some 5 }

/-- C2 (code bug, batch.go line 155): submitting a pod whose derived task
identifier already exists makes the remote AddTask report a submission
conflict, yet CreatePod discards the result of `taskClient.Add` and
returns nil — the conflict is silently swallowed, contradicting the
spec's propagation guarantee.  The store is returned unchanged (the
submission was rejected) while the caller sees success. -/
theorem createPod_swallows_addTask_conflict :
    (addTask occupiedStore
        { zeroTask with id := getTaskIDForPod "default" "mypod" }).2
      = some (GoError.remote 409 "TaskExists") ∧
    CreatePodGo genOK occupiedStore podA = (occupiedStore, GoResult.ok ()) := by
  constructor
  · rfl
  · rfl

/-- C4: GetPod maps an absent derived identifier (the remote 404) to an
absent pod with no error, and maps a present, well-formed task to the pod
reconstructed from the embedded payload with its Status field replaced by
the status freshly translated from the task's current state. -/
theorem getPod_absent_none_present_fresh (store : List CloudTask)
    (ns name : String) :
    (store.find? (fun u => u.id == getTaskIDForPod ns name) = none →
      GetPodGo store ns name = GoResult.ok none) ∧
    (∀ t p, store.find? (fun u => u.id == getTaskIDForPod ns name) = some t →
      getPodFromTask t = Except.ok p →
      GetPodGo store ns name =
        GoResult.ok (some { p with status := convertTaskToPodStatus t })) := by
  constructor
  · intro h
    simp [GetPodGo, getTaskRemote, h, GetPodCore]
  · intro t p hf hp
    simp [GetPodGo, getTaskRemote, hf, GetPodCore, hp]

/-- C4 witness: on the empty store the lookup is an absent pod without
error; on a store holding podA's running task the lookup returns podA
with the freshly translated Running status. -/
theorem getPod_absent_none_present_fresh_witness :
    GetPodGo [] "default" "mypod" = GoResult.ok none ∧
    GetPodGo [taskB] "default" "mypod" =
      GoResult.ok (some { podA with status := convertTaskToPodStatus taskB }) :=
  ⟨(getPod_absent_none_present_fresh [] "default" "mypod").1 rfl,
   (getPod_absent_none_present_fresh [taskB] "default" "mypod").2 taskB podA
     rfl rfl⟩

/-- C5: DeletePod deletes the task with the derived identifier and
returns the remote error unchanged when the deletion fails; in
particular, deleting a pod whose derived identifier is not in the job
returns the remote not-found error, never silent success. -/
theorem deletePod_propagates_remote_error (store : List CloudTask) (pod : Pod) :
    (∀ s e, deleteTask store (getTaskIDForPod pod.ns pod.name) = (s, some e) →
      DeletePodGo store pod = (s, GoResult.err e)) ∧
    ((store.any (fun u => u.id == getTaskIDForPod pod.ns pod.name)) = false →
      DeletePodGo store pod =
        (store, GoResult.err (GoError.remote 404 "TaskNotFound"))) ∧
    ((store.any (fun u => u.id == getTaskIDForPod pod.ns pod.name)) = true →
      DeletePodGo store pod =
        (store.filter (fun u => u.id != getTaskIDForPod pod.ns pod.name),
          GoResult.ok ())) := by
  refine ⟨?_, ?_, ?_⟩
  · intro s e h
    simp [DeletePodGo, h]
  · intro h
    simp [DeletePodGo, deleteTask, h]
  · intro h
    simp [DeletePodGo, deleteTask, h]

/-- C5 witness: deleting podA from the empty store returns the remote
not-found error; deleting it from a store holding its task succeeds and
removes the task. -/
theorem deletePod_propagates_remote_error_witness :
    DeletePodGo [] podA = ([], GoResult.err (GoError.remote 404 "TaskNotFound")) ∧
    DeletePodGo [taskB] podA =
      ([taskB].filter (fun u => u.id != getTaskIDForPod podA.ns podA.name),
        GoResult.ok ()) :=
  ⟨(deletePod_propagates_remote_error [] podA).2.1 rfl,
   (deletePod_propagates_remote_error [taskB] podA).2.2 rfl⟩

/-- A second concrete pod for enumerations. -/
def podB : Pod :=
  { ns := "default", name := "otherpod", uid := "uid-2"
    spec := { containers := [{ name := "c1" }], volumes := [] }
    status := { phase := .running, startTime := none } }

/-- A well-formed remote task for podB, already completed successfully. -/
def taskC : CloudTask :=
  { id := getTaskIDForPod "default" "otherpod", displayName := "uid-2"
    commandLine := ""
    environmentSettings := [{ name := podJsonKey, value := Payload.pod podB }]
    state := .completed, exitCode := some 0, startTime := some 1 }

/-- A task under podA's identifier with no embedded pod payload. -/
def taskNoPayload : CloudTask :=
  { zeroTask with id := getTaskIDForPod "default" "mypod", state := .running }

/-- C3 counterexample: on a fetched task lacking the embedded-Pod entry,
GetPod does not return a translation error to its immediate caller — it
panics with it; likewise for GetPods. -/
theorem getPod_translation_failure_no_error_return :
    (GetPodGo [taskNoPayload] "default" "mypod").isErrReturn = false ∧
    GetPodGo [taskNoPayload] "default" "mypod" =
      GoResult.panicked (GoError.translation "task has no embedded pod payload") ∧
    (GetPodsGo [Except.ok [taskNoPayload]]).isErrReturn = false ∧
    GetPodsGo [Except.ok [taskNoPayload]] =
      GoResult.panicked (GoError.translation "task has no embedded pod payload") :=
  ⟨rfl, rfl, rfl, rfl⟩

/-- C3 amended: for every fetched task whose environment settings lack
the fixed embedded-Pod entry or whose payload cannot be deserialized,
GetPod and GetPods abort by panicking with the translation error (they do
not return it as an ordinary error); they never return a zero-value Pod
and never succeed silently for that task. -/
theorem getPod_getPods_translation_failure_panics :
    (∀ (resp : TaskGetResponse) (e : GoError), resp.err = none →
      getPodFromTask resp.task = Except.error e →
      GetPodCore resp = GoResult.panicked e) ∧
    (∀ (tasks : List CloudTask) (pages : List (Except GoError (List CloudTask))),
      listTasksGo pages = Except.ok tasks →
      (∃ t, t ∈ tasks ∧ ∃ e, getPodFromTask t = Except.error e) →
      ∃ e', GetPodsGo pages = GoResult.panicked e') := by
  constructor
  · intro resp e hresp he
    simp [GetPodCore, hresp, he]
  · intro tasks pages hlist hbad
    obtain ⟨e', he'⟩ := getPodsLoop_bad_panics tasks hbad
    exact ⟨e', by simp [GetPodsGo, hlist, he']⟩

/-- C3 witness: concrete evaluation of both panic paths on a single-task
store whose task has no payload. -/
theorem getPod_getPods_translation_failure_panics_witness :
    GetPodCore (getTaskRemote [taskNoPayload] (getTaskIDForPod "default" "mypod"))
      = GoResult.panicked (GoError.translation "task has no embedded pod payload") ∧
    (∃ e', GetPodsGo [Except.ok [taskNoPayload]] = GoResult.panicked e') :=
  ⟨getPod_getPods_translation_failure_panics.1
      (getTaskRemote [taskNoPayload] (getTaskIDForPod "default" "mypod"))
      (GoError.translation "task has no embedded pod payload") rfl rfl,
    getPod_getPods_translation_failure_panics.2 [taskNoPayload]
      [Except.ok [taskNoPayload]] rfl
      ⟨taskNoPayload, by simp,
        GoError.translation "task has no embedded pod payload", rfl⟩⟩

/-- C6: UpdatePod is DeletePod followed by CreatePod, in that order.
If the delete step fails, UpdatePod returns that error, the create step
is not attempted, and no task exists under the derived identifier; after
a successful delete (the state between the two steps), UpdatePod
continues as CreatePod on the deleted state, and a Get issued on that
intermediate state observes absence, not stale data. -/
theorem updatePod_delete_then_create
    (gen : PodComponents → Except GoError String)
    (store : List CloudTask) (pod : Pod) :
    (∀ s e, DeletePodGo store pod = (s, GoResult.err e) →
      UpdatePodGo gen store pod = (s, GoResult.err e) ∧
      (s.any (fun u => u.id == getTaskIDForPod pod.ns pod.name)) = false) ∧
    (∀ s, DeletePodGo store pod = (s, GoResult.ok ()) →
      UpdatePodGo gen store pod = CreatePodGo gen s pod ∧
      GetPodGo s pod.ns pod.name = GoResult.ok none) := by
  rw [deletePodGo_eq]
  by_cases hany : store.any (fun u => u.id == getTaskIDForPod pod.ns pod.name)
  · rw [if_pos hany]
    constructor
    · intro s e h
      cases h
    · intro s h
      injection h with hs _
      subst hs
      constructor
      · unfold UpdatePodGo
        rw [deletePodGo_eq, if_pos hany]
      · have h := find?_filter_ne_none store (getTaskIDForPod pod.ns pod.name)
        unfold GetPodGo getTaskRemote
        rw [h]
        rfl
  · rw [if_neg hany]
    constructor
    · intro s e h
      injection h with hs he
      subst hs
      refine ⟨?_, by simpa using hany⟩
      unfold UpdatePodGo
      rw [deletePodGo_eq, if_neg hany, he]
    · intro s h
      injection h with _ hbad
      cases hbad

/-- C6 witness: on the empty store the delete step fails with not-found
and UpdatePod returns that error with no task present; on a store holding
podA's task the delete succeeds, UpdatePod continues as CreatePod on the
emptied store, and a Get on that intermediate store observes absence. -/
theorem updatePod_delete_then_create_witness :
    (UpdatePodGo genOK [] podA
        = ([], GoResult.err (GoError.remote 404 "TaskNotFound")) ∧
      (([] : List CloudTask).any
        (fun u => u.id == getTaskIDForPod podA.ns podA.name)) = false) ∧
    (UpdatePodGo genOK [taskB] podA = CreatePodGo genOK [] podA ∧
      GetPodGo [] podA.ns podA.name = GoResult.ok none) :=
  ⟨(updatePod_delete_then_create genOK [] podA).1 []
      (GoError.remote 404 "TaskNotFound") rfl,
   (updatePod_delete_then_create genOK [taskB] podA).2 [] rfl⟩

/-- C7 counterexample: when a page fetch fails mid-pagination, GetPods
does not return the error to the caller — it panics with it (no partial
result either). -/
theorem getPods_pagination_failure_no_error_return :
    GetPodsGo [Except.ok [taskB], Except.error (GoError.remote 500 "Boom")]
      = GoResult.panicked (GoError.remote 500 "Boom") ∧
    (GetPodsGo [Except.ok [taskB],
        Except.error (GoError.remote 500 "Boom")]).isErrReturn = false :=
  ⟨rfl, rfl⟩

/-- C7 amended: when all pages succeed, GetPods drains every page and
returns exactly one reconstructed pod per task, in the remote listing
order (so exactly N pods for N tasks); when any page fetch fails —
including mid-pagination — the whole call aborts by panicking with that
error rather than returning a partial result (the error is raised as a
panic, not returned to the caller). -/
theorem getPods_drains_pages_aborts_on_failure :
    (∀ (p0 : List CloudTask) (ps : List (List CloudTask)),
      (∀ t ∈ p0 ++ ps.flatten, ∃ p, getPodFromTask t = Except.ok p) →
      ∃ pods, GetPodsGo ((p0 :: ps).map Except.ok) = GoResult.ok pods ∧
        pods.length = (p0 ++ ps.flatten).length ∧
        List.Forall₂ (fun t p => getPodFromTask t = Except.ok p)
          (p0 ++ ps.flatten) pods) ∧
    (∀ (pre : List (List CloudTask)) (e : GoError)
        (rest : List (Except GoError (List CloudTask))),
      GetPodsGo (pre.map Except.ok ++ Except.error e :: rest)
        = GoResult.panicked e) := by
  constructor
  · intro p0 ps h
    obtain ⟨pods, hloop, hall⟩ := getPodsLoop_ok (p0 ++ ps.flatten) h
    have hl : listTasksGo (Except.ok p0 :: List.map Except.ok ps)
        = Except.ok (p0 ++ ps.flatten) := listTasksGo_ok p0 ps
    exact ⟨pods, by simp [GetPodsGo, hl, hloop],
      hall.length_eq.symm, hall⟩
  · intro pre e rest
    simp [GetPodsGo, listTasksGo_error]

/-- C7 witness: two tasks spread over two pages are both returned, in
listing order. -/
theorem getPods_drains_pages_aborts_on_failure_witness :
    ∃ pods, GetPodsGo (([taskB] :: [[taskC]]).map Except.ok)
        = GoResult.ok pods ∧
      pods.length = ([taskB] ++ [[taskC]].flatten).length ∧
      List.Forall₂ (fun t p => getPodFromTask t = Except.ok p)
        ([taskB] ++ [[taskC]].flatten) pods :=
  getPods_drains_pages_aborts_on_failure.1 [taskB] [[taskC]] (by
    intro t ht
    simp only [List.flatten, List.append_nil, List.cons_append,
      List.nil_append, List.mem_cons, List.not_mem_nil, or_false] at ht
    rcases ht with h | h
    · exact ⟨podA, by rw [h]; rfl⟩
    · exact ⟨podB, by rw [h]; rfl⟩)

/-- A task whose embedded payload was serialized when the pod was Pending
but whose remote state has since become Completed with exit code 0. -/
def taskStale : CloudTask :=
  { id := getTaskIDForPod "default" "mypod", displayName := "uid-1"
    commandLine := ""
    environmentSettings := [{ name := podJsonKey, value := Payload.pod podA }]
    state := .completed, exitCode := some 0, startTime := some 3 }

/-- C9 counterexample: GetPods returns the pod with the creation-time
status embedded in the payload (Pending) although the task's current
state translates to Succeeded — the enumeration path does not recompute
status. -/
theorem getPods_returns_stale_status :
    GetPodsGo [Except.ok [taskStale]] = GoResult.ok [podA] ∧
    podA.status.phase = PodPhase.pending ∧
    (convertTaskToPodStatus taskStale).phase = PodPhase.succeeded ∧
    podA.status ≠ convertTaskToPodStatus taskStale :=
  ⟨rfl, rfl, rfl, by decide⟩

/-- C9 amended: every pod returned by the single lookup GetPod carries a
status freshly recomputed from the task's current state; every pod
returned by the enumeration GetPods carries exactly the status embedded
in its task's payload at creation time — the enumeration path does not
recompute status. -/
theorem getPod_fresh_getPods_embedded_status :
    (∀ (store : List CloudTask) (ns name : String) t p,
      store.find? (fun u => u.id == getTaskIDForPod ns name) = some t →
      getPodFromTask t = Except.ok p →
      ∃ q, GetPodGo store ns name = GoResult.ok (some q) ∧
        q.status = convertTaskToPodStatus t) ∧
    (∀ (pages : List (Except GoError (List CloudTask)))
        (tasks : List CloudTask) (pods : List Pod),
      listTasksGo pages = Except.ok tasks →
      GetPodsGo pages = GoResult.ok pods →
      List.Forall₂ (fun t p => getPodFromTask t = Except.ok p) tasks pods) := by
  constructor
  · intro store ns name t p hf hp
    exact ⟨{ p with status := convertTaskToPodStatus t },
      (getPod_absent_none_present_fresh store ns name).2 t p hf hp, rfl⟩
  · intro pages tasks pods hlist hpods
    apply getPodsLoop_ok_inv
    simpa [GetPodsGo, hlist] using hpods

/-- C9 witness: GetPod on the running task returns podA with the fresh
Running status; GetPods on the completed task returns podA with its
embedded Pending status. -/
theorem getPod_fresh_getPods_embedded_status_witness :
    (∃ q, GetPodGo [taskB] "default" "mypod" = GoResult.ok (some q) ∧
      q.status = convertTaskToPodStatus taskB) ∧
    List.Forall₂ (fun t p => getPodFromTask t = Except.ok p)
      [taskStale] [podA] :=
  ⟨getPod_fresh_getPods_embedded_status.1 [taskB] "default" "mypod" taskB podA
      rfl rfl,
    getPod_fresh_getPods_embedded_status.2 [Except.ok [taskStale]]
      [taskStale] [podA] rfl rfl⟩

/-- A concrete file client for evaluations: only `wd/c1` exists. -/
def wGetFile : String → String → String → Except GoError String :=
  fun _ _ p =>
    if p == "wd/" ++ "c1" then Except.ok "RAWLOG"
    else Except.error (GoError.remote 404 "FileNotFound")

/-- A concrete stream reader that yields the stream unchanged. -/
def wRead : String → Except GoError String := fun s => Except.ok s

/-- C10: GetContainerLogs ignores its tail argument — any two tail values
give the same result — and on success that result is the entire raw
content of the file wd/<containerName> fetched from the task's working
directory. -/
theorem getContainerLogs_ignores_tail {R : Type}
    (getFromTask : String → String → String → Except GoError R)
    (readAll : R → Except GoError String)
    (jobID ns podName containerName : String) (t1 t2 : Int) :
    GetContainerLogsGo getFromTask readAll jobID ns podName containerName t1 =
      GetContainerLogsGo getFromTask readAll jobID ns podName containerName t2 ∧
    (∀ r content,
      getFromTask jobID (getTaskIDForPod ns podName) ("wd/" ++ containerName)
        = Except.ok r →
      readAll r = Except.ok content →
      GetContainerLogsGo getFromTask readAll jobID ns podName containerName t1
        = Except.ok content) := by
  constructor
  · rfl
  · intro r content h1 h2
    simp [GetContainerLogsGo, h1, h2]

/-- C10 witness: with tails 0 and 99 the call returns the same result,
namely the raw content of wd/c1. -/
theorem getContainerLogs_ignores_tail_witness :
    GetContainerLogsGo wGetFile wRead "job1" "default" "mypod" "c1" 0 =
      GetContainerLogsGo wGetFile wRead "job1" "default" "mypod" "c1" 99 ∧
    GetContainerLogsGo wGetFile wRead "job1" "default" "mypod" "c1" 0 =
      Except.ok "RAWLOG" :=
  ⟨(getContainerLogs_ignores_tail wGetFile wRead "job1" "default" "mypod"
      "c1" 0 99).1,
   (getContainerLogs_ignores_tail wGetFile wRead "job1" "default" "mypod"
      "c1" 0 99).2 "RAWLOG" "RAWLOG" rfl rfl⟩

/-- C8 witness: a concrete pair of distinct (namespace, name) pairs whose
derived identifiers differ, even though the naive dash-joined strings
would collide. -/
theorem getTaskIDForPod_deterministic_injective_witness :
    ("kube-system", "dns") ≠ ("kube", "system-dns") ∧
    getTaskIDForPod "kube-system" "dns" ≠ getTaskIDForPod "kube" "system-dns" :=
  ⟨by decide,
   getTaskIDForPod_deterministic_injective.2 "kube-system" "dns" "kube"
     "system-dns" (by decide)⟩
